import Mathlib

/-!
Verification of the OAuth example application (`auth_provider.py`,
`user_provisioner.py`, `models.py`, `main.py`) against its specification.

The embedding is shallow: Python dictionaries become association lists over a
small dynamic value type `PyVal`, HTTP/SDK effects become explicit inputs
(the responses the network would return), and each function of the source is
translated into a Lean function over those inputs.  Outbound side effects that
the specification talks about (the userinfo request, claims parsing, the
provisioning call) are reified as explicit trace components of the results.
-/

namespace OAuthApp

/-- A dynamic Python value, as far as this codebase inspects them:
strings and string-keyed dictionaries. -/
inductive PyVal where
  | vStr (s : String)
  | vDict (d : List (String × PyVal))
deriving Repr

/-- A Python dict with string keys, as an association list
(first binding wins, as `dict.get` returns the single binding). -/
abbrev Dict := List (String × PyVal)

/-- `d.get(k)` / `d[k]` lookup: `none` when the key is absent. -/
def dictGet (d : Dict) (k : String) : Option PyVal :=
  (d.find? (fun p => p.1 = k)).map (·.2)

/-- `k in d` membership test on a Python dict. -/
def dictContains (d : Dict) (k : String) : Bool :=
  d.any (fun p => p.1 = k)

/-- Python truthiness of an optional value as used by the route layer:
`None`, the empty string and the empty dict are falsy. -/
def pyTruthy : Option PyVal → Bool
  | none => false
  | some (.vStr s) => !(s == "")
  | some (.vDict d) => !d.isEmpty

/-- `models.User` as the provider layer constructs it: SQLModel table classes
perform no validation, so the fields hold whatever `claims.get`/`json.get`
returned, including an absent value. -/
structure UserInfo where
  email : Option PyVal
  name : Option PyVal
deriving Repr

/-- `AuthResult`: the raw provider token payload plus the normalized user. -/
structure AuthResult where
  token : Dict
  user : UserInfo
deriving Repr

/-- A Python call either returns normally or lets an exception propagate. -/
inductive PyOutcome (α : Type) where
  | ok (a : α)
  | raised
deriving Repr

/-! ### GoogleAuth (`auth_provider.py`, lines 24–77) -/

/-- Configuration stored by `GoogleAuth.__init__`; `scopes` is already the
result of the `scopes or ["openid", "email", "profile"]` defaulting. -/
structure GoogleCfg where
  client_id : String
  client_secret : String
  redirect_uri : String
  scopes : List String
deriving Repr

/-- `GoogleAuth.__init__`: `self.scopes = scopes or ["openid", "email",
"profile"]` — `None` and the empty list are falsy, so both select the
default. -/
def googleInit (client_id client_secret redirect_uri : String)
    (scopes : Option (List String)) : GoogleCfg :=
  { client_id := client_id
    client_secret := client_secret
    redirect_uri := redirect_uri
    scopes :=
      match scopes with
      | none => ["openid", "email", "profile"]
      | some [] => ["openid", "email", "profile"]
      | some l => l }

/-- An HTTP response as `process_callback` inspects it: its success flag and
its parsed JSON body. -/
structure HttpResp where
  is_success : Bool
  json : Dict
deriving Repr

/-- The network environment of `GoogleAuth.process_callback`: the response of
the token POST, and the response of the userinfo GET as a function of the
`access_token` extracted from the token payload. -/
structure GoogleEnv where
  tokenResponse : HttpResp
  userinfoResponse : Option PyVal → HttpResp

/-- The outbound HTTP calls `GoogleAuth.process_callback` can perform. -/
inductive NetCall where
  | tokenPost
  | userinfoGet
deriving Repr, DecidableEq

/-- `GoogleAuth.process_callback` (lines 48–77): POST to the token endpoint;
on non-success return `None`; otherwise GET userinfo with the extracted
access token; on non-success return `None`; otherwise build the
`AuthResult` from the `email`/`name` fields of the userinfo body.  The
second component records which outbound calls were performed. -/
def googleProcessCallback (env : GoogleEnv) :
    Option AuthResult × List NetCall :=
  let response := env.tokenResponse
  if !response.is_success then
    (none, [.tokenPost])
  else
    let tokens := response.json
    let response2 := env.userinfoResponse (dictGet tokens "access_token")
    if !response2.is_success then
      (none, [.tokenPost, .userinfoGet])
    else
      let user_info := response2.json
      (some { token := tokens
              user := { email := dictGet user_info "email"
                        name := dictGet user_info "name" } },
       [.tokenPost, .userinfoGet])

/-! ### MicrosoftAuth (`auth_provider.py`, lines 79–130) -/

/-- The outcome of the delegated MSAL token exchange
(`acquire_token_by_authorization_code`): it raises, or it returns a result
mapping. -/
inductive MsalOutcome where
  | raises
  | returns (result : Dict)
deriving Repr

/-- `MicrosoftAuth.process_callback` (lines 107–130): the `try` block wraps
only the delegated exchange, so an exception there yields `None`; a result
mapping containing an `"error"` key yields `None`; otherwise
`claims = result.get("id_token_claims", {})` and the `AuthResult` is built
from `claims.get("preferred_username")` and `claims.get("name")`.  If
`id_token_claims` is present but not a dict, `claims.get` raises an
uncaught `AttributeError`.  The Boolean records whether line 123 (claims
extraction) was reached. -/
def msProcessCallback : MsalOutcome → PyOutcome (Option AuthResult) × Bool
  | .raises => (.ok none, false)
  | .returns result =>
    if dictContains result "error" then
      (.ok none, false)
    else
      match (dictGet result "id_token_claims").getD (PyVal.vDict []) with
      | .vDict claims =>
          (.ok (some { token := result
                       user := { email := dictGet claims "preferred_username"
                                 name := dictGet claims "name" } }),
           true)
      | .vStr _ => (.raised, true)

/-- The failure conditions of the Microsoft token-exchange step: the
delegated call raises, or its result mapping contains an `"error"` key. -/
def msExchangeFails : MsalOutcome → Prop
  | .raises => True
  | .returns result => dictContains result "error" = true

/-! ### UserProvisioner (`user_provisioner.py`) and `models.User` -/

/-- A persisted `User` row (`models.py`): email is the primary key. -/
structure DbUser where
  email : String
  name : String
deriving Repr, DecidableEq

/-- The user store: the rows of the single `User` table.
`session.get(User, email)` is the primary-key lookup `find?`. -/
abbrev Store := List DbUser

/-- `UserProvisioner.provision_user`: look up by primary key; if a row
exists, return without writing; otherwise insert the new row and commit. -/
def provision_user (store : Store) (email name : String) : Store :=
  match store.find? (fun u => u.email = email) with
  | some _ => store
  | none => store ++ [{ email := email, name := name }]

/-- The store invariant: at most one `User` row per email
(all stored rows have pairwise distinct emails). -/
def atMostOnePerEmail (store : Store) : Prop :=
  store.Pairwise (fun u v => u.email ≠ v.email)

instance : DecidablePred atMostOnePerEmail := fun store =>
  List.instDecidablePairwise store

/-! ### The `/auth/{provider}` route (`main.py`, lines 78–116) -/

/-- The parts of an incoming callback request that `auth_callback` reads:
the path parameter, the `oauth_state` cookie, and the `code` and `state`
query parameters (absent query parameters are `None`). -/
structure CallbackReq where
  provider : String
  oauthStateCookie : Option String
  code : Option String
  state : Option String
deriving Repr

/-- Python truthiness of an optional string (`not stored_state`,
`not code`): `None` and `""` are falsy. -/
def strTruthy : Option String → Bool
  | none => false
  | some s => !(s == "")

/-- `get_auth_provider` succeeds exactly for the two known provider names
(`main.py`, lines 31–45); anything else raises `ValueError`. -/
def knownProvider (p : String) : Bool :=
  p == "google" || p == "microsoft"

/-- What the route responds with: an `HTTPException` status/detail, or the
redirect to `/` that sets the identity cookies. -/
inductive RouteResp where
  | error (status : Nat) (detail : String)
  | redirect (userEmail userName : Option PyVal)
deriving Repr

/-- Result of one `auth_callback` invocation, with the two effects the
specification tracks reified: whether the provider's `process_callback`
was invoked and whether `provision_user` was invoked. -/
structure RouteOut where
  resp : RouteResp
  providerCalled : Bool
  provisionCalled : Bool
deriving Repr

/-- `auth_callback` (`main.py`, lines 78–116), with the provider's
`process_callback` return value supplied as `pc` (only consulted if the
flow reaches the call).  Checks, in source order: state-cookie validity,
provider name, presence of `code`; then calls the provider; `None` →
HTTP 401; falsy email → HTTP 400; otherwise provisions and redirects. -/
def auth_callback (req : CallbackReq) (pc : Option AuthResult) : RouteOut :=
  if !strTruthy req.oauthStateCookie || req.oauthStateCookie != req.state then
    { resp := .error 400 "Invalid state parameter"
      providerCalled := false, provisionCalled := false }
  else if !knownProvider req.provider then
    { resp := .error 400 ("Unknown provider: " ++ req.provider)
      providerCalled := false, provisionCalled := false }
  else if !strTruthy req.code then
    { resp := .error 400 "Authorization code missing"
      providerCalled := false, provisionCalled := false }
  else
    match pc with
    | none =>
      { resp := .error 401 "Authentication failed"
        providerCalled := true, provisionCalled := false }
    | some auth_result =>
      let user_email := auth_result.user.email
      let user_name :=
        if pyTruthy auth_result.user.name then auth_result.user.name
        else some (.vStr "")
      if !pyTruthy user_email then
        { resp := .error 400 "Email not provided by the provider."
          providerCalled := true, provisionCalled := false }
      else
        { resp := .redirect user_email user_name
          providerCalled := true, provisionCalled := true }

/-! ### URL construction (`GoogleAuth.get_auth_url` and `urlencode`) -/

/-- `str()` applied to an `Optional[str]`, as `urlencode` stringifies dict
values: `str(None)` is the literal string `"None"`. -/
def pyToStr : Option String → String
  | none => "None"
  | some s => s

/-- Characters `urllib.parse.quote_plus` never escapes
(the `_ALWAYS_SAFE` set: ASCII letters, digits, `_.-~`). -/
def isAlwaysSafe (c : Char) : Bool :=
  c.isAlpha || c.isDigit || c == '_' || c == '.' || c == '-' || c == '~'

/-- Uppercase hexadecimal digit of a value below 16. -/
def hexDigit (n : Nat) : Char :=
  if n < 10 then Char.ofNat (48 + n) else Char.ofNat (55 + n)

/-- `%XX` escape of one byte. -/
def percentByte (b : Nat) : List Char :=
  ['%', hexDigit (b / 16), hexDigit (b % 16)]

/-- UTF-8 bytes of a Unicode scalar value. -/
def utf8Bytes (n : Nat) : List Nat :=
  if n < 0x80 then [n]
  else if n < 0x800 then [0xC0 + n / 0x40, 0x80 + n % 0x40]
  else if n < 0x10000 then
    [0xE0 + n / 0x1000, 0x80 + (n / 0x40) % 0x40, 0x80 + n % 0x40]
  else
    [0xF0 + n / 0x40000, 0x80 + (n / 0x1000) % 0x40,
     0x80 + (n / 0x40) % 0x40, 0x80 + n % 0x40]

/-- `quote_plus` on one character: safe characters pass through, space
becomes `+`, everything else is percent-escaped byte by byte. -/
def quotePlusChar (c : Char) : List Char :=
  if isAlwaysSafe c then [c]
  else if c == ' ' then ['+']
  else (utf8Bytes c.toNat).foldr (fun b acc => percentByte b ++ acc) []

/-- `urllib.parse.quote_plus` on a string. -/
def quotePlus (s : String) : String :=
  ⟨s.data.foldr (fun c acc => quotePlusChar c ++ acc) []⟩

/-- One `key=value` pair of an urlencoded query: the value is stringified
with `str()`, key and value quoted with `quote_plus`. -/
def encodePair (p : String × Option String) : String :=
  quotePlus p.1 ++ "=" ++ quotePlus (pyToStr p.2)

/-- `urllib.parse.urlencode` on a dict with `Optional[str]` values: the
encoded `key=value` pairs joined with `&`. -/
def urlencode : List (String × Option String) → String
  | [] => ""
  | [p] => encodePair p
  | p :: ps => encodePair p ++ "&" ++ urlencode ps

/-- The params dict built by `GoogleAuth.get_auth_url`
(`auth_provider.py`, lines 38–45), in source order. -/
def googleAuthParams (cfg : GoogleCfg) (state : Option String) :
    List (String × Option String) :=
  [("client_id", some cfg.client_id),
   ("response_type", some "code"),
   ("scope", some (String.intercalate " " cfg.scopes)),
   ("redirect_uri", some cfg.redirect_uri),
   ("state", state),
   ("access_type", some "offline")]

/-- The base endpoint of the Google authorization URL. -/
def googleAuthBase : String := "https://accounts.google.com/o/oauth2/v2/auth"

/-- `GoogleAuth.get_auth_url` (lines 37–46):
`f"https://accounts.google.com/o/oauth2/v2/auth?{urlencode(params)}"`. -/
def googleGetAuthUrl (cfg : GoogleCfg) (state : Option String) : String :=
  googleAuthBase ++ "?" ++ urlencode (googleAuthParams cfg state)

/-- Lookup of a query parameter's (pre-encoding) value in a params dict. -/
def paramLookup (params : List (String × Option String)) (k : String) :
    Option (Option String) :=
  (params.find? (fun p => p.1 = k)).map (·.2)

/-- Configuration stored by `MicrosoftAuth.__init__` (`auth_provider.py`,
lines 80–98); `scopes` is already the result of the
`scopes or ["User.Read"]` defaulting. -/
structure MicrosoftCfg where
  client_id : String
  authority : String
  redirect_uri : String
  scopes : List String
deriving Repr

/-- Modelled from the spec: `MicrosoftAuth.get_auth_url` delegates to the
MSAL library's `get_authorization_request_url`, which is not part of this
repository.  Per the spec (§4.3) the helper builds the authorization URL
from the configured client identity and the scopes, redirect URI and state
passed by `get_auth_url`; it is modelled as the authority's authorize
endpoint with an urlencoded params dict carrying exactly those values. -/
def msalAuthRequestParams (cfg : MicrosoftCfg) (state : Option String) :
    List (String × Option String) :=
  [("client_id", some cfg.client_id),
   ("response_type", some "code"),
   ("scope", some (String.intercalate " " cfg.scopes)),
   ("redirect_uri", some cfg.redirect_uri),
   ("state", state)]

/-- Modelled from the spec: the URL `MicrosoftAuth.get_auth_url` returns,
built by the delegated MSAL helper from the modelled params. -/
def microsoftGetAuthUrl (cfg : MicrosoftCfg) (state : Option String) : String :=
  cfg.authority ++ "/oauth2/v2.0/authorize?"
    ++ urlencode (msalAuthRequestParams cfg state)

/-- Two params dicts agree everywhere except (possibly) at `"state"`:
same keys in the same order, and equal values at every other key. -/
def differOnlyInState (p1 p2 : List (String × Option String)) : Prop :=
  p1.map Prod.fst = p2.map Prod.fst ∧
  ∀ k, k ≠ "state" → paramLookup p1 k = paramLookup p2 k

/-- A token-exchange result with no `error` key and no identity claims:
`{"access_token": "tok"}`. -/
def msNoClaimsResult : Dict := [("access_token", PyVal.vStr "tok")]

/-! ## Theorems -/

/-- One step of provisioning preserves email uniqueness. -/
lemma provision_user_preserves_unique (store : Store) (e n : String)
    (h : atMostOnePerEmail store) :
    atMostOnePerEmail (provision_user store e n) := by
  unfold provision_user
  cases hf : store.find? (fun u => u.email = e) with
  | some u => exact h
  | none =>
    have habs : ∀ u ∈ store, u.email ≠ e := by
      intro u hu
      have := List.find?_eq_none.mp hf u hu
      simpa using this
    unfold atMostOnePerEmail at h ⊢
    rw [List.pairwise_append]
    refine ⟨h, List.pairwise_singleton _ _, ?_⟩
    intro u hu v hv
    simp only [List.mem_singleton] at hv
    subst hv
    exact habs u hu

/-- C9: `provision_user` either leaves the store unchanged, or (when the
email is absent) appends the one new row at the end; existing rows are
never removed or modified. -/
theorem provision_user_frame (store : Store) (e n : String) :
    store <+: provision_user store e n ∧
      (provision_user store e n = store ∨
        (store.find? (fun u => u.email = e) = none ∧
          provision_user store e n = store ++ [{ email := e, name := n }])) := by
  unfold provision_user
  cases hf : store.find? (fun u => u.email = e) with
  | some u => exact ⟨⟨[], List.append_nil store⟩, Or.inl rfl⟩
  | none => exact ⟨⟨[{ email := e, name := n }], rfl⟩, Or.inr ⟨rfl, rfl⟩⟩

/-- C6: every sequence of `provision_user` calls preserves the
at-most-one-row-per-email invariant. -/
theorem provision_user_seq_preserves_unique (calls : List (String × String))
    (store : Store) (h : atMostOnePerEmail store) :
    atMostOnePerEmail
      (calls.foldl (fun s c => provision_user s c.1 c.2) store) := by
  induction calls generalizing store with
  | nil => exact h
  | cons c cs ih =>
    exact ih (provision_user store c.1 c.2)
      (provision_user_preserves_unique store c.1 c.2 h)

/-- Witness for C6 at a concrete call sequence and store. -/
theorem provision_user_seq_preserves_unique_witness :
    atMostOnePerEmail
      ([("a@x.com", "Ann"), ("a@x.com", "Anne"), ("b@x.com", "Bob")].foldl
        (fun s c => provision_user s c.1 c.2) []) :=
  provision_user_seq_preserves_unique
    [("a@x.com", "Ann"), ("a@x.com", "Anne"), ("b@x.com", "Bob")] []
    (by decide)

/-- C2 fails as stated over every store state: if a row for the email
already exists with some other name, the stored name after both calls is
that pre-existing name, not the name from the first of the two calls. -/
theorem provision_user_twice_counterexample :
    (provision_user
        (provision_user [{ email := "a@x.com", name := "old" }]
          "a@x.com" "n1")
        "a@x.com" "n2")
      = [{ email := "a@x.com", name := "old" }] ∧ "old" ≠ "n1" := by
  constructor
  · rfl
  · decide

/-- `provision_user` is a no-op when the primary-key lookup finds a row. -/
lemma provision_user_found (store : Store) (e n : String) (u : DbUser)
    (h : store.find? (fun u => u.email = e) = some u) :
    provision_user store e n = store := by
  unfold provision_user
  rw [h]

/-- `provision_user` appends the new row when the lookup finds nothing. -/
lemma provision_user_absent (store : Store) (e n : String)
    (h : store.find? (fun u => u.email = e) = none) :
    provision_user store e n = store ++ [{ email := e, name := n }] := by
  unfold provision_user
  rw [h]

/-- C2 (amended): starting from a store with no row for `e`, provisioning
`e` twice with names `n1` then `n2` leaves exactly one row for `e`, whose
name is `n1`; the second call is a no-op. -/
theorem provision_user_twice_first_wins (store : Store) (e n1 n2 : String)
    (h : store.find? (fun u => u.email = e) = none) :
    provision_user (provision_user store e n1) e n2
        = provision_user store e n1 ∧
      (provision_user (provision_user store e n1) e n2).filter
          (fun u => u.email = e)
        = [{ email := e, name := n1 }] := by
  have h1 : provision_user store e n1 = store ++ [{ email := e, name := n1 }] :=
    provision_user_absent store e n1 h
  have hfind2 : (provision_user store e n1).find? (fun u => u.email = e)
      = some { email := e, name := n1 } := by
    rw [h1, List.find?_append, h]
    simp
  have h2 : provision_user (provision_user store e n1) e n2
      = provision_user store e n1 :=
    provision_user_found _ _ _ _ hfind2
  refine ⟨h2, ?_⟩
  rw [h2, h1, List.filter_append]
  have hnil : store.filter (fun u => decide (u.email = e)) = [] := by
    rw [List.filter_eq_nil_iff]
    intro u hu
    have := List.find?_eq_none.mp h u hu
    simpa using this
  simp [hnil]

/-- C1 fails as stated: on a successful exchange result with no identity
claims, `MicrosoftAuth.process_callback` does not return `None`; it
returns an `AuthResult` whose email and name fields are both absent. -/
theorem msProcessCallback_no_claims_counterexample :
    msProcessCallback (.returns msNoClaimsResult)
        = (.ok (some { token := msNoClaimsResult
                       user := { email := none, name := none } }), true) ∧
      (msProcessCallback (.returns msNoClaimsResult)).1
        ≠ PyOutcome.ok none := by
  refine ⟨rfl, ?_⟩
  intro hcontra
  simp [msProcessCallback, msNoClaimsResult, dictContains, dictGet] at hcontra

/-- C1 (amended): `MicrosoftAuth.process_callback` returns `None` exactly
in the two failure cases of the exchange step — the delegated call raises,
or the result mapping contains an `error` key.  When the exchange succeeds
but carries no `id_token_claims`, it instead returns an `AuthResult` with
both identity fields absent. -/
theorem msProcessCallback_failure_cases :
    (∀ out, msExchangeFails out → msProcessCallback out = (.ok none, false)) ∧
      (∀ result : Dict, dictContains result "error" = false →
        dictGet result "id_token_claims" = none →
        msProcessCallback (.returns result)
          = (.ok (some { token := result
                         user := { email := none, name := none } }), true)) := by
  constructor
  · intro out hfail
    cases out with
    | raises => rfl
    | returns result =>
      have herr : dictContains result "error" = true := hfail
      simp [msProcessCallback, herr]
  · intro result herr hclaims
    simp only [msProcessCallback]
    rw [if_neg (by simp [herr]), hclaims]
    rfl

/-- Witness for C1 (amended): both branches at concrete exchange results. -/
theorem msProcessCallback_failure_cases_witness :
    msProcessCallback (.returns [("error", PyVal.vStr "invalid_grant")])
        = (.ok none, false) ∧
      msProcessCallback (.returns msNoClaimsResult)
        = (.ok (some { token := msNoClaimsResult
                       user := { email := none, name := none } }), true) :=
  ⟨msProcessCallback_failure_cases.1
      (.returns [("error", PyVal.vStr "invalid_grant")]) rfl,
    msProcessCallback_failure_cases.2 msNoClaimsResult rfl rfl⟩

/-- C3: when the token exchange reports a non-success outcome, both
providers return an absent result; Google performs only the token POST
(no userinfo GET), and Microsoft never reaches claims extraction. -/
theorem processCallback_exchange_failure :
    (∀ env : GoogleEnv, env.tokenResponse.is_success = false →
        googleProcessCallback env = (none, [.tokenPost]) ∧
          NetCall.userinfoGet ∉ (googleProcessCallback env).2) ∧
      (∀ out, msExchangeFails out →
        msProcessCallback out = (.ok none, false)) := by
  constructor
  · intro env h
    have hres : googleProcessCallback env = (none, [.tokenPost]) := by
      simp [googleProcessCallback, h]
    refine ⟨hres, ?_⟩
    rw [hres]
    decide
  · intro out hfail
    cases out with
    | raises => rfl
    | returns result =>
      have herr : dictContains result "error" = true := hfail
      simp [msProcessCallback, herr]

/-- Witness for C3 at concrete failing exchanges for both providers. -/
theorem processCallback_exchange_failure_witness :
    (googleProcessCallback
        { tokenResponse := { is_success := false, json := [] }
          userinfoResponse := fun _ => { is_success := true, json := [] } }
       = (none, [.tokenPost]) ∧
      NetCall.userinfoGet ∉
        (googleProcessCallback
          { tokenResponse := { is_success := false, json := [] }
            userinfoResponse :=
              fun _ => { is_success := true, json := [] } }).2) ∧
      msProcessCallback .raises = (.ok none, false) :=
  ⟨processCallback_exchange_failure.1
      { tokenResponse := { is_success := false, json := [] }
        userinfoResponse := fun _ => { is_success := true, json := [] } } rfl,
    processCallback_exchange_failure.2 .raises trivial⟩

/-- Witness for C2 (amended) at a concrete store. -/
theorem provision_user_twice_first_wins_witness :
    provision_user
        (provision_user [{ email := "b@x.com", name := "Bob" }] "a@x.com" "n1")
        "a@x.com" "n2"
      = provision_user [{ email := "b@x.com", name := "Bob" }] "a@x.com" "n1" ∧
    (provision_user
        (provision_user [{ email := "b@x.com", name := "Bob" }] "a@x.com" "n1")
        "a@x.com" "n2").filter (fun u => u.email = "a@x.com")
      = [{ email := "a@x.com", name := "n1" }] :=
  provision_user_twice_first_wins [{ email := "b@x.com", name := "Bob" }]
    "a@x.com" "n1" "n2" (by decide)

/-- Unfolding `urlencode` on a list with at least two elements. -/
lemma urlencode_cons (p : String × Option String)
    (ps : List (String × Option String)) (h : ps ≠ []) :
    urlencode (p :: ps) = encodePair p ++ "&" ++ urlencode ps := by
  cases ps with
  | nil => exact absurd rfl h
  | cons q qs => rfl

/-- The characters of an appended string are the appended character lists. -/
lemma string_data_append (s t : String) : (s ++ t).data = s.data ++ t.data :=
  rfl

/-- The right part of a string append is a suffix, at the character level. -/
lemma suffix_append_str (a b : String) : b.data <:+ (a ++ b).data :=
  ⟨a.data, rfl⟩

/-- `"&" ++ b` is a suffix of `a ++ "&" ++ b`, at the character level. -/
lemma amp_suffix_str (a b : String) :
    (("&" : String) ++ b).data <:+ (a ++ "&" ++ b).data :=
  ⟨a.data, by simp [string_data_append, List.append_assoc]⟩

/-- In an urlencoded params dict, the encoding of a nonempty tail `qs`,
preceded by its separating `&`, is a suffix of the whole encoding. -/
lemma urlencode_amp_suffix (ps qs : List (String × Option String))
    (hps : ps ≠ []) (hqs : qs ≠ []) :
    (("&" : String) ++ urlencode qs).data <:+ (urlencode (ps ++ qs)).data := by
  induction ps with
  | nil => exact absurd rfl hps
  | cons p ps ih =>
    cases ps with
    | nil =>
      rw [List.cons_append, List.nil_append, urlencode_cons p qs hqs]
      exact amp_suffix_str (encodePair p) (urlencode qs)
    | cons r rs =>
      have hne : (r :: rs) ++ qs ≠ [] := by simp
      rw [List.cons_append, urlencode_cons p _ hne]
      exact (ih (by simp)).trans
        ((suffix_append_str (encodePair p ++ "&") (urlencode ((r :: rs) ++ qs))))

/-- Lookup in a params dict, one binding at a time. -/
lemma paramLookup_cons (a : String) (v : Option String)
    (ps : List (String × Option String)) (k : String) :
    paramLookup ((a, v) :: ps) k = if a = k then some v else paramLookup ps k := by
  by_cases h : a = k
  · simp [paramLookup, List.find?_cons, h]
  · simp [paramLookup, List.find?_cons, h]

/-- C7: the Google authorization URL is the fixed base endpoint followed by
the urlencoded params dict; that dict carries `access_type=offline` and a
`scope` value that is the configured scope list joined with single spaces
(the default list when none was configured); `&access_type=offline`
literally occurs at the end of the returned URL. -/
theorem googleGetAuthUrl_offline_and_scope (cid csec ruri : String)
    (scopes : Option (List String)) (state : Option String) :
    googleGetAuthUrl (googleInit cid csec ruri scopes) state
        = googleAuthBase ++ "?"
          ++ urlencode (googleAuthParams (googleInit cid csec ruri scopes) state) ∧
      googleAuthBase = "https://accounts.google.com/o/oauth2/v2/auth" ∧
      paramLookup (googleAuthParams (googleInit cid csec ruri scopes) state)
          "access_type" = some (some "offline") ∧
      paramLookup (googleAuthParams (googleInit cid csec ruri scopes) state)
          "scope"
        = some (some (String.intercalate " "
            (googleInit cid csec ruri scopes).scopes)) ∧
      (googleInit cid csec ruri none).scopes = ["openid", "email", "profile"] ∧
      ("&access_type=offline" : String).data
        <:+ (googleGetAuthUrl (googleInit cid csec ruri scopes) state).data := by
  refine ⟨rfl, rfl, rfl, rfl, rfl, ?_⟩
  have hsplit : googleAuthParams (googleInit cid csec ruri scopes) state
      = [("client_id", some (googleInit cid csec ruri scopes).client_id),
         ("response_type", some "code"),
         ("scope", some (String.intercalate " "
            (googleInit cid csec ruri scopes).scopes)),
         ("redirect_uri", some (googleInit cid csec ruri scopes).redirect_uri),
         ("state", state)]
        ++ [("access_type", some "offline")] := rfl
  have h1 : (("&" : String)
        ++ urlencode [("access_type", (some "offline" : Option String))]).data
      <:+ (urlencode
        (googleAuthParams (googleInit cid csec ruri scopes) state)).data := by
    rw [hsplit]
    exact urlencode_amp_suffix _ _ (by simp) (by simp)
  have h2 : (("&" : String)
      ++ urlencode [("access_type", (some "offline" : Option String))])
      = "&access_type=offline" := rfl
  rw [h2] at h1
  exact h1.trans
    (suffix_append_str (googleAuthBase ++ "?")
      (urlencode (googleAuthParams (googleInit cid csec ruri scopes) state)))

/-- C8: for a fixed configuration and two state values, the authorization
URLs of both providers are the same base followed by params dicts that
agree at every key except `state`, where they carry the respective state
values. -/
theorem getAuthUrl_differs_only_in_state (cfg : GoogleCfg)
    (mcfg : MicrosoftCfg) (s1 s2 : Option String) :
    googleGetAuthUrl cfg s1
        = googleAuthBase ++ "?" ++ urlencode (googleAuthParams cfg s1) ∧
      googleGetAuthUrl cfg s2
        = googleAuthBase ++ "?" ++ urlencode (googleAuthParams cfg s2) ∧
      differOnlyInState (googleAuthParams cfg s1) (googleAuthParams cfg s2) ∧
      paramLookup (googleAuthParams cfg s1) "state" = some s1 ∧
      paramLookup (googleAuthParams cfg s2) "state" = some s2 ∧
      microsoftGetAuthUrl mcfg s1
        = mcfg.authority ++ "/oauth2/v2.0/authorize?"
          ++ urlencode (msalAuthRequestParams mcfg s1) ∧
      microsoftGetAuthUrl mcfg s2
        = mcfg.authority ++ "/oauth2/v2.0/authorize?"
          ++ urlencode (msalAuthRequestParams mcfg s2) ∧
      differOnlyInState (msalAuthRequestParams mcfg s1)
        (msalAuthRequestParams mcfg s2) ∧
      paramLookup (msalAuthRequestParams mcfg s1) "state" = some s1 ∧
      paramLookup (msalAuthRequestParams mcfg s2) "state" = some s2 := by
  refine ⟨rfl, rfl, ⟨rfl, ?_⟩, rfl, rfl, rfl, rfl, ⟨rfl, ?_⟩, rfl, rfl⟩
  · intro k hk
    have hs : ¬ ("state" = k) := fun h => hk h.symm
    simp [googleAuthParams, paramLookup_cons, hs]
  · intro k hk
    have hs : ¬ ("state" = k) := fun h => hk h.symm
    simp [msalAuthRequestParams, paramLookup_cons, hs]

/-- C10: with the `state` argument omitted (its default `None`), the
params dict still carries a `state` entry, `urlencode` stringifies the
absent value to the literal `"None"`, and the returned URL literally
contains `state=None` as a query parameter. -/
theorem googleGetAuthUrl_none_state (cfg : GoogleCfg) :
    paramLookup (googleAuthParams cfg none) "state" = some none ∧
      pyToStr none = "None" ∧
      encodePair ("state", none) = "state=None" ∧
      ("&state=None&access_type=offline" : String).data
        <:+ (googleGetAuthUrl cfg none).data := by
  refine ⟨rfl, rfl, rfl, ?_⟩
  have hsplit : googleAuthParams cfg none
      = [("client_id", some cfg.client_id),
         ("response_type", some "code"),
         ("scope", some (String.intercalate " " cfg.scopes)),
         ("redirect_uri", some cfg.redirect_uri)]
        ++ [("state", none), ("access_type", some "offline")] := rfl
  have h1 : (("&" : String)
        ++ urlencode [(("state", none) : String × Option String),
          ("access_type", some "offline")]).data
      <:+ (urlencode (googleAuthParams cfg none)).data := by
    rw [hsplit]
    exact urlencode_amp_suffix _ _ (by simp) (by simp)
  have h2 : (("&" : String)
      ++ urlencode [(("state", none) : String × Option String),
        ("access_type", some "offline")])
      = "&state=None&access_type=offline" := rfl
  rw [h2] at h1
  exact h1.trans
    (suffix_append_str (googleAuthBase ++ "?")
      (urlencode (googleAuthParams cfg none)))

/-- C4: when the `oauth_state` cookie is missing or differs from the
`state` query parameter, or the `code` query parameter is missing, the
route answers HTTP 400 and the provider's `process_callback` is never
invoked. -/
theorem auth_callback_rejects_before_provider
    (req : CallbackReq) (pc : Option AuthResult)
    (h : req.oauthStateCookie = none ∨ req.oauthStateCookie ≠ req.state ∨
      req.code = none) :
    (∃ d, (auth_callback req pc).resp = .error 400 d) ∧
      (auth_callback req pc).providerCalled = false := by
  rcases h with hc | hne | hcode
  · have hcond : (!strTruthy req.oauthStateCookie
        || req.oauthStateCookie != req.state) = true := by
      simp [hc, strTruthy]
    unfold auth_callback
    rw [if_pos hcond]
    exact ⟨⟨_, rfl⟩, rfl⟩
  · have hcond : (!strTruthy req.oauthStateCookie
        || req.oauthStateCookie != req.state) = true := by
      simp [bne_iff_ne, hne]
    unfold auth_callback
    rw [if_pos hcond]
    exact ⟨⟨_, rfl⟩, rfl⟩
  · unfold auth_callback
    by_cases h1 : (!strTruthy req.oauthStateCookie
        || req.oauthStateCookie != req.state) = true
    · rw [if_pos h1]
      exact ⟨⟨_, rfl⟩, rfl⟩
    · rw [if_neg h1]
      by_cases h2 : (!knownProvider req.provider) = true
      · rw [if_pos h2]
        exact ⟨⟨_, rfl⟩, rfl⟩
      · rw [if_neg h2]
        have h3 : (!strTruthy req.code) = true := by simp [hcode, strTruthy]
        rw [if_pos h3]
        exact ⟨⟨_, rfl⟩, rfl⟩

/-- Witness for C4: no `oauth_state` cookie on a well-formed query. -/
theorem auth_callback_rejects_before_provider_witness :
    (∃ d, (auth_callback
        { provider := "google", oauthStateCookie := none,
          code := some "C", state := some "S" } none).resp
      = .error 400 d) ∧
      (auth_callback
        { provider := "google", oauthStateCookie := none,
          code := some "C", state := some "S" } none).providerCalled = false :=
  auth_callback_rejects_before_provider
    { provider := "google", oauthStateCookie := none,
      code := some "C", state := some "S" } none (Or.inl rfl)

/-- C5: once state and code validation pass, an absent provider result
yields HTTP 401 and a result with an absent email yields HTTP 400; in both
cases `provision_user` is never called. -/
theorem auth_callback_after_validation
    (req : CallbackReq) (pc : Option AuthResult)
    (h1 : strTruthy req.oauthStateCookie = true)
    (h2 : req.oauthStateCookie = req.state)
    (h3 : knownProvider req.provider = true)
    (h4 : strTruthy req.code = true) :
    (pc = none →
      (auth_callback req pc).resp = .error 401 "Authentication failed" ∧
        (auth_callback req pc).provisionCalled = false) ∧
      (∀ ar, pc = some ar → ar.user.email = none →
        (auth_callback req pc).resp
          = .error 400 "Email not provided by the provider." ∧
          (auth_callback req pc).provisionCalled = false) := by
  rw [h2] at h1
  constructor
  · intro hpc
    subst hpc
    simp [auth_callback, h1, h2, h3, h4]
  · intro ar hpc hemail
    subst hpc
    simp [auth_callback, h1, h2, h3, h4, hemail, pyTruthy]

/-- Witness for C5: concrete requests with matching state, one with an
absent provider result and one with a result lacking an email. -/
theorem auth_callback_after_validation_witness :
    ((auth_callback
        { provider := "google", oauthStateCookie := some "S",
          code := some "C", state := some "S" } none).resp
        = .error 401 "Authentication failed" ∧
      (auth_callback
        { provider := "google", oauthStateCookie := some "S",
          code := some "C", state := some "S" } none).provisionCalled
        = false) ∧
      ((auth_callback
          { provider := "microsoft", oauthStateCookie := some "S",
            code := some "C", state := some "S" }
          (some { token := [], user := { email := none, name := none } })).resp
        = .error 400 "Email not provided by the provider." ∧
        (auth_callback
          { provider := "microsoft", oauthStateCookie := some "S",
            code := some "C", state := some "S" }
          (some { token := [],
                  user := { email := none, name := none } })).provisionCalled
          = false) :=
  ⟨(auth_callback_after_validation
      { provider := "google", oauthStateCookie := some "S",
        code := some "C", state := some "S" } none rfl rfl rfl rfl).1 rfl,
    (auth_callback_after_validation
      { provider := "microsoft", oauthStateCookie := some "S",
        code := some "C", state := some "S" }
      (some { token := [], user := { email := none, name := none } })
      rfl rfl rfl rfl).2
      { token := [], user := { email := none, name := none } } rfl rfl⟩

end OAuthApp
